import Mathlib

/-!
# Verification of monobit's storage-resolution and dispatch engine

Shallow embedding of `monobit/storage.py`, `monobit/formats/_base.py`,
`monobit/formats/figlet.py` and `monobit/operations.py`.

External collaborators (`streams.py`, `containers.py`, `font.py`, `pack.py`,
`constants.py`) are not part of the given sources; they are modelled as
abstract parameters (environment records of functions) or, where the spec
fixes their meaning, as definitions marked `Modelled from the spec`.
-/

namespace Monobit

/-! ## Collaborator data model -/

/-- An open stream handle: the embedding keeps only its display name,
which is all `storage.py` reads from it. -/
structure StreamV where
  name : String
deriving DecidableEq, Repr

/-- A container handle (directory, archive, ...): the embedding keeps
only its display name. -/
structure ContainerV where
  name : String
deriving DecidableEq, Repr

/-- A location argument as accepted by `open_location` / `open_container`:
empty (None), a path string, an open stream, or an open container. -/
inductive Loc where
  | emptyLoc
  | path (s : String)
  | stream (v : StreamV)
  | containerLoc (c : ContainerV)
deriving DecidableEq, Repr

/-- Python truthiness of a location argument: None and the empty string
are falsy, open streams and containers are truthy. -/
def Loc.truthy : Loc → Bool
  | .emptyLoc => false
  | .path s => s ≠ ""
  | .stream _ => true
  | .containerLoc _ => true

/-- The Python exceptions that appear in the given sources. -/
inductive PyErr where
  | valueError (msg : String)
  | containerFormatError (msg : String)
  | fileFormatError (msg : String)
  | brokenPipeError
  | otherError (msg : String)
deriving DecidableEq, Repr

/-- Modelled from the spec: `constants.py` is not under src/. `CONVERTER_NAME`
is "this system's identifier", a fixed string constant. -/
def CONVERTER_NAME : String := "monobit v0.1"

/-- Modelled from the spec: `constants.py` is not under src/. `DEFAULT_FORMAT`
is "a single configured default format identifier", a fixed string constant. -/
def DEFAULT_FORMAT : String := "yaff"

/-- A registered loader/saver plugin; the embedding keeps its format name,
which is what `storage.py` reads from it. -/
structure Plugin where
  name : String
deriving DecidableEq, Repr

/-- A Font, reduced to the fields the given sources read: its `name`
(used by `_save_all` to derive a file name) and the three provenance
properties.  Python's unset/empty property is modelled as `""`
(both are falsy, which is all the call sites test). -/
structure Font where
  name : String
  converter : String
  source_format : String
  source_name : String
deriving DecidableEq, Repr

/-- Modelled from the spec: `font.py` is not under src/.  Per spec section 3 a
Font is a glyph collection "plus a flat property mapping", and
`set_properties` returns a new Font with the given properties assigned into
that mapping (assignment into a mapping overwrites; the call site in
`storage.py` itself implements keep-if-present with
the idiom `_font.source_format or loader.name`, which presupposes
overwriting assignment). -/
def Font.set_properties (f : Font) (converter source_format source_name : String) :
    Font :=
  { f with
      converter := converter
      source_format := source_format
      source_name := source_name }

/-- Python `a or b` on strings: the empty string is falsy. -/
def pyOr (a b : String) : String := if a = "" then b else a

/-- Python `s.replace(a, b)` for a one-character pattern and replacement,
as used in `_save_all` (`font.name.replace(' ', '_')`): substitute the
character everywhere in the string. -/
def replaceChar (s : String) (a b : Char) : String :=
  String.mk (s.data.map (fun c => if c = a then b else c))

/-! ## Format registry: `ConverterRegistry.get_for` (storage.py 180-190)

`identify` and `__getitem__` live in the missing `streams.py`
(`MagicRegistry`); they are passed in as parameters.  `identify` is a
function of the examined file so that (non-)dependence on the file is
expressible; a falsy converter is `none`. -/

/-- `ConverterRegistry.get_for` (storage.py lines 180-190): consult
`identify` only when no explicit format is given; fall back to direct
lookup of the explicit format or, failing that, of `DEFAULT_FORMAT`. -/
def get_for (identify : Option StreamV → Option Plugin)
    (lookup : String → Option Plugin) (file : Option StreamV)
    (format : String) : Option Plugin :=
  let converter : Option Plugin :=
    if format = "" then identify file else none
  match converter with
  | some c => some c
  | none => lookup (pyOr format DEFAULT_FORMAT)

/-! ## Loading: `_load_from_file` (storage.py 83-104) -/

/-- The provenance stamping applied to each font of the pack returned by a
loader (storage.py lines 96-104): `converter` is passed to
`set_properties` unconditionally, `source_format` and `source_name`
through the keep-if-present idiom `x or default`. -/
def stampFont (loaderName filename : String) (f : Font) : Font :=
  f.set_properties CONVERTER_NAME
    (pyOr f.source_format loaderName)
    (pyOr f.source_name filename)

/-- `_load_from_file` (storage.py lines 83-104).  The loader plugin's body
is abstracted as `run` (plugins live in separate modules); `basename`
models `Path(name).name`.  A loader's result is its list of fonts
(`Pack(fonts)` of the spec); Python falsy result is the empty list. -/
def load_from_file (basename : String → String)
    (identify : Option StreamV → Option Plugin)
    (lookup : String → Option Plugin)
    (run : Plugin → Except PyErr (List Font))
    (instream : StreamV) (format : String) :
    Except PyErr (List Font) :=
  match get_for identify lookup (some instream) format with
  | none => .error (.fileFormatError ("Cannot load from format `" ++ format ++ "`."))
  | some loader =>
    match run loader with
    | .error e => .error e
    | .ok fonts =>
      if fonts = [] then .error (.fileFormatError "No fonts found in file.")
      else .ok (fonts.map (stampFont loader.name (basename instream.name)))

/-! ## Bulk loading: `_load_all` (storage.py 106-122)

The per-member `open_stream(name, 'r', where=container)` call (line 113)
is abstracted as `openMember`, and the recursive `load` call on the
opened stream (line 115) as `loadMember`; `Pack()` accumulation with `+=`
is list concatenation (spec section 3: a Pack is an ordered sequence of
Font).  Crucially, `open_stream` sits OUTSIDE the try block that guards
only the `load` call, so an open failure propagates out of `_load_all`
and aborts the whole batch, while a load failure is logged
(`Could not load ...`) and the member skipped. -/

/-- `_load_all` (storage.py lines 106-122): iterate the container's member
names in order; open each member's stream unguarded — an open error
aborts the run — then run the guarded load on the stream: its error is
appended to the log and the member skipped, its success contributes its
fonts to the accumulated pack.  The run yields the pack and the log
lines, or the first member-open error. -/
def load_all (openMember : String → Except PyErr StreamV)
    (loadMember : StreamV → Except PyErr (List Font))
    (members : List String) : Except PyErr (List Font × List String) :=
  members.foldl
    (fun st name =>
      match st with
      | .error e => .error e
      | .ok (packs, log) =>
        match openMember name with
        | .error e => .error e
        | .ok stream =>
          match loadMember stream with
          | .error _ => .ok (packs, log ++ ["Could not load `" ++ name ++ "`"])
          | .ok pack => .ok (packs ++ pack, log))
    (.ok ([], []))

/-! ## Location resolver: `open_location` (storage.py 22-68)

`open_container` / `open_stream` live in the missing `containers.py` /
`streams.py`; they are fields of an environment record.  Each
resolver run also returns the ordered trace of the open calls it made,
with the arguments it passed, so that statements about which overwrite
flag reaches which collaborator call are expressible. -/

/-- Which call site of the resolver performed a container open: the two
opens of the `where` location (storage.py lines 43 and 59), the probe of
a path `file` as a container (line 51), or the probe of the freshly
opened stream as a nested container (line 63). -/
inductive Role where
  | whereContainer
  | fileProbe
  | nestedProbe
deriving DecidableEq, Repr

/-- One collaborator call made by the resolver, with the arguments passed. -/
inductive OpenEvent where
  | containerOpen (role : Role) (target : Loc) (mode : String) (overwrite : Bool)
  | streamOpen (target : Loc) (mode : String) (overwrite : Bool)
deriving DecidableEq, Repr

/-- The collaborator environment of the resolver: path predicates
(`pathlib.Path`) and the two opening functions of `containers.py` /
`streams.py`. -/
structure Env where
  isDir : String → Bool
  parent : String → String
  basename : String → String
  openContainer : Loc → String → Bool → Except PyErr ContainerV
  openStream : Loc → String → ContainerV → Bool → Except PyErr StreamV

/-- The tail of `open_location` (storage.py lines 58-68): open `where` as a
container with overwrite permitted, open `file` as a stream inside it with
the caller's overwrite flag, then probe the stream itself as a nested
container, treating a `ContainerFormatError` of the probe as "plain leaf
file". -/
def olTail (env : Env) (file : Loc) (mode : String) (whr : Loc) (ov : Bool) :
    List OpenEvent × Except PyErr (Option StreamV × ContainerV) :=
  let e1 := OpenEvent.containerOpen .whereContainer whr mode true
  match env.openContainer whr mode true with
  | .error e => ([e1], .error e)
  | .ok container =>
    let e2 := OpenEvent.streamOpen file mode ov
    match env.openStream file mode container ov with
    | .error e => ([e1, e2], .error e)
    | .ok st =>
      let e3 := OpenEvent.containerOpen .nestedProbe (.stream st) mode ov
      match env.openContainer (.stream st) mode ov with
      | .ok nested => ([e1, e2, e3], .ok (none, nested))
      | .error (.containerFormatError _) => ([e1, e2, e3], .ok (some st, container))
      | .error e => ([e1, e2, e3], .error e)

/-- `open_location` (storage.py lines 22-68), as an ordered decision over
the argument shapes; the yielded pair is the result value. -/
def open_location (env : Env) (file0 : Loc) (mode : String) (whr0 : Loc)
    (ov : Bool) :
    List OpenEvent × Except PyErr (Option StreamV × ContainerV) :=
  if mode ≠ "r" ∧ mode ≠ "w" then
    ([], .error (.valueError ("Unsupported mode '" ++ mode ++ "'.")))
  else if ¬ file0.truthy ∧ ¬ whr0.truthy then
    ([], .error (.valueError "No location provided."))
  else
    -- storage.py line 38: a directory path becomes the container
    let fw : Loc × Loc :=
      match file0 with
      | .path s => if env.isDir s then (Loc.emptyLoc, Loc.path s) else (file0, whr0)
      | _ => (file0, whr0)
    let file := fw.1
    let whr := fw.2
    if whr.truthy ∧ ¬ file.truthy then
      -- storage.py line 42: only a container location was provided
      let e1 := OpenEvent.containerOpen .whereContainer whr mode true
      match env.openContainer whr mode true with
      | .error e => ([e1], .error e)
      | .ok c => ([e1], .ok (none, c))
    else
      match file with
      | .path s =>
        if ¬ whr.truthy then
          -- storage.py line 47: probe the path itself as a container
          let e1 := OpenEvent.containerOpen .fileProbe (.path s) mode ov
          match env.openContainer (.path s) mode ov with
          | .ok c => ([e1], .ok (none, c))
          | .error (.containerFormatError _) =>
            -- fall back to the enclosing directory as the container
            let r := olTail env (.path (env.basename s)) mode
              (.path (env.parent s)) ov
            (e1 :: r.1, r.2)
          | .error e => ([e1], .error e)
        else olTail env (.path s) mode whr ov
      | _ => olTail env file mode whr ov

/-! ## The duplicate resolver: `open_location` (formats/_base.py 30-76)

Embedded separately from `formats/_base.py`, which carries its own copy of
the resolver, for comparison with the `storage.py` copy. -/

/-- The tail of `open_location` as found in `formats/_base.py`
(lines 66-76). -/
def olTail_base (env : Env) (file : Loc) (mode : String) (whr : Loc)
    (ov : Bool) :
    List OpenEvent × Except PyErr (Option StreamV × ContainerV) :=
  let e1 := OpenEvent.containerOpen .whereContainer whr mode true
  match env.openContainer whr mode true with
  | .error e => ([e1], .error e)
  | .ok container =>
    let e2 := OpenEvent.streamOpen file mode ov
    match env.openStream file mode container ov with
    | .error e => ([e1, e2], .error e)
    | .ok st =>
      let e3 := OpenEvent.containerOpen .nestedProbe (.stream st) mode ov
      match env.openContainer (.stream st) mode ov with
      | .ok nested => ([e1, e2, e3], .ok (none, nested))
      | .error (.containerFormatError _) => ([e1, e2, e3], .ok (some st, container))
      | .error e => ([e1, e2, e3], .error e)

/-- `open_location` as found in `formats/_base.py` (lines 30-76). -/
def open_location_base (env : Env) (file0 : Loc) (mode : String) (whr0 : Loc)
    (ov : Bool) :
    List OpenEvent × Except PyErr (Option StreamV × ContainerV) :=
  if mode ≠ "r" ∧ mode ≠ "w" then
    ([], .error (.valueError ("Unsupported mode '" ++ mode ++ "'.")))
  else if ¬ file0.truthy ∧ ¬ whr0.truthy then
    ([], .error (.valueError "No location provided."))
  else
    let fw : Loc × Loc :=
      match file0 with
      | .path s => if env.isDir s then (Loc.emptyLoc, Loc.path s) else (file0, whr0)
      | _ => (file0, whr0)
    let file := fw.1
    let whr := fw.2
    if whr.truthy ∧ ¬ file.truthy then
      let e1 := OpenEvent.containerOpen .whereContainer whr mode true
      match env.openContainer whr mode true with
      | .error e => ([e1], .error e)
      | .ok c => ([e1], .ok (none, c))
    else
      match file with
      | .path s =>
        if ¬ whr.truthy then
          let e1 := OpenEvent.containerOpen .fileProbe (.path s) mode ov
          match env.openContainer (.path s) mode ov with
          | .ok c => ([e1], .ok (none, c))
          | .error (.containerFormatError _) =>
            let r := olTail_base env (.path (env.basename s)) mode
              (.path (env.parent s)) ov
            (e1 :: r.1, r.2)
          | .error e => ([e1], .error e)
        else olTail_base env (.path s) mode whr ov
      | _ => olTail_base env file mode whr ov

/-! ## Bulk saving: `_save_all` (storage.py 148-163)

The body of the try block (`open_stream` plus `_save_to_file`) is
abstracted as `saveOne`; `unused_name` is the container's name generator.
The run's outcome is the list of entry names written and the list of
error-log lines, in order. -/

/-- `_save_all` (storage.py lines 148-163): one entry per font, named by
the font's name with spaces replaced and made unused in the container; a
`BrokenPipeError` is passed over silently, any other error is logged; in
both cases the loop continues with the next font. -/
def save_all (unused_name : String → String → String)
    (saveOne : String → Font → Except PyErr Unit)
    (format : String) (fonts : List Font) :
    List String × List String :=
  fonts.foldl
    (fun st font =>
      let name := replaceChar font.name ' ' '_'
      let fmt := pyOr format DEFAULT_FORMAT
      let filename := unused_name name fmt
      match saveOne filename font with
      | .ok _ => (st.1 ++ [filename], st.2)
      | .error .brokenPipeError => st
      | .error _ => (st.1, st.2 ++ ["Could not save `" ++ filename ++ "`"]))
    ([], [])

/-! ## The figlet saver: `save_flf` (formats/figlet.py 43-53)

Everything after the pack-size check (conversion and writing of the single
font) is abstracted as `body`, returning the lines it wrote and an
optional error.  A `save_flf` run likewise returns the lines written to
the output stream and an optional error. -/

/-- `save_flf` (formats/figlet.py lines 43-53): reject a pack of more than
one font before writing anything; unpack a singleton pack and run the
conversion/writing body on the font; unpacking an empty pack raises. -/
def save_flf (fonts : List Font)
    (body : Font → List String × Option PyErr) :
    List String × Option PyErr :=
  if 1 < fonts.length then
    ([], some (.fileFormatError "Can only save one font to .flf file."))
  else
    match fonts with
    | [font] => body font
    | _ => ([], some (.valueError "not enough values to unpack"))

/-! ## Glyph operations: `stretch` and `shrink` (operations.py 72-114)

A glyph mapping is a dict keyed by codepoints whose values are matrices of
booleans; all the comprehensions in `operations.py` preserve the key
sequence, so the dict is embedded as an association list and dict equality
coincides with list equality. -/

/-- A glyph bitmap: a list of rows of pixels. -/
abbrev Bitmap := List (List Bool)

/-- A glyph mapping: codepoint keys in insertion order, each with its
bitmap. -/
abbrev Glyphs := List (Nat × Bitmap)

/-- The Python extended slice `l[offs :: step]` for `step ≥ 1`: every
`step`-th element starting at index `offs`.  `sliceStep.go` counts down
the distance to the next element to keep. -/
def sliceStep.go (step : Nat) : List α → Nat → List α
  | [], _ => []
  | a :: rest, 0 => a :: sliceStep.go step rest (step - 1)
  | _ :: rest, n + 1 => sliceStep.go step rest n

/-- The Python extended slice `l[offs :: step]` for `step ≥ 1`. -/
def sliceStep (offs step : Nat) (l : List α) : List α :=
  sliceStep.go step (l.drop offs) 0

/-- `hex(key)` for a natural key. -/
def hexKey (n : Nat) : String := "0x" ++ String.mk (Nat.toDigits 16 n)

/-- `stretch` (operations.py lines 72-87): repeat every row `factor_y`
times, then every column `factor_x` times. -/
def stretch (glyphs : Glyphs) (factor_x factor_y : Nat) : Glyphs :=
  -- vertical stretch
  let glyphs1 : Glyphs :=
    glyphs.map (fun kc => (kc.1, kc.2.flatMap (fun row => List.replicate factor_y row)))
  -- horizontal stretch
  glyphs1.map (fun kc =>
    (kc.1, kc.2.map (fun row => row.flatMap (fun col => List.replicate factor_x col))))

/-- `shrink` (operations.py lines 89-114): keep every `factor_y`-th row;
unless `force` is set, compare against every other row offset and raise a
`ValueError` naming the mismatching keys if any offset disagrees; then
keep every `factor_x`-th column. -/
def shrink (glyphs : Glyphs) (factor_x factor_y : Nat) (force : Bool) :
    Except PyErr Glyphs :=
  -- vertical shrink
  let shrunk_glyphs : Glyphs := glyphs.map (fun kc => (kc.1, sliceStep 0 factor_y kc.2))
  let alt : Nat → Glyphs := fun offs =>
    glyphs.map (fun kc => (kc.1, sliceStep offs factor_y kc.2))
  let firstLoss : Option Nat :=
    if force then none
    else (List.range' 1 (factor_y - 1)).find? (fun offs => shrunk_glyphs ≠ alt offs)
  match firstLoss with
  | some offs =>
    let noMatchKeys : List String :=
      (shrunk_glyphs.zip (alt offs)).filterMap
        (fun p => if p.1.2 ≠ p.2.2 then some (hexKey p.1.1) else none)
    .error (.valueError ("can't shrink without loss: " ++ toString noMatchKeys))
  | none =>
    .ok (shrunk_glyphs.map (fun kc => (kc.1, kc.2.map (fun row => sliceStep 0 factor_x row))))

/-- The rectangularity hypothesis of the round-trip claim: every bitmap in
the mapping has at least one row and all its rows share one width. -/
def rectNonEmpty (glyphs : Glyphs) : Bool :=
  glyphs.all (fun kc =>
    !kc.2.isEmpty && kc.2.all (fun row => row.length == (kc.2.headD []).length))

/-! ## Concrete fixtures used by witnesses and counterexamples -/

/-- A registered figlet plugin. -/
def figletPlugin : Plugin := ⟨"figlet"⟩

/-- An identification function that recognizes every stream as figlet. -/
def identifyFig : Option StreamV → Option Plugin := fun _ => some figletPlugin

/-- A registry lookup with no entries. -/
def lookupNone : String → Option Plugin := fun _ => none

/-- A registry lookup resolving every name to the figlet plugin. -/
def lookupFig : String → Option Plugin := fun _ => some figletPlugin

/-- A font carrying no provenance. -/
def fontPlain : Font := ⟨"A", "", "", ""⟩

/-- A second font carrying no provenance. -/
def fontB : Font := ⟨"B", "", "", ""⟩

/-- A font already carrying full provenance from an earlier conversion. -/
def fontTagged : Font := ⟨"A", "other-tool", "fmt0", "src0"⟩

/-- A loader body returning one untagged font. -/
def runPlain : Plugin → Except PyErr (List Font) := fun _ => .ok [fontPlain]

/-- A loader body returning one already-tagged font. -/
def runTagged : Plugin → Except PyErr (List Font) := fun _ => .ok [fontTagged]

/-- A container name generator appending the format as a suffix. -/
def unusedNameW : String → String → String := fun n fmt => n ++ "." ++ fmt

/-- A per-font save that hits a broken pipe on font `A` and succeeds on
every other font. -/
def saveOneW : String → Font → Except PyErr Unit :=
  fun _ f => if f.name = "A" then .error .brokenPipeError else .ok ()

/-- A figlet conversion/writing body producing one output line. -/
def bodyW : Font → List String × Option PyErr := fun _ => (["flf2a$ 1 1 2 0 0"], none)

/-- A resolver environment in which every open succeeds. -/
def envW : Env where
  isDir := fun _ => false
  parent := fun _ => "."
  basename := fun s => s
  openContainer := fun _ _ _ => .ok ⟨"cont"⟩
  openStream := fun _ _ _ _ => .ok ⟨"strm"⟩

/-- A small two-glyph mapping of rectangular non-empty bitmaps. -/
def gW : Glyphs := [(65, [[true, false], [false, true]]), (66, [[true, true]])]

/-- A member-stream opener for which every member opens. -/
def openAllW : String → Except PyErr StreamV := fun name => .ok ⟨name⟩

/-- A member-stream opener that fails on the member named `bad` and opens
every other member. -/
def openFailW : String → Except PyErr StreamV :=
  fun name =>
    if name = "bad" then .error (.otherError "cannot open member") else .ok ⟨name⟩

/-- A member load that fails to parse the member named `bad.flf` and
returns one font for every other member. -/
def loadW : StreamV → Except PyErr (List Font) :=
  fun stream =>
    if stream.name = "bad.flf" then .error (.fileFormatError "failed to parse")
    else .ok [fontPlain]

/-- A member load that succeeds on every member. -/
def loadAnyW : StreamV → Except PyErr (List Font) := fun _ => .ok [fontPlain]

/-! # Theorems -/

/-- C1, counterexample: the claim says any error raised while loading one
member is caught and the bulk call never raises because of failing
members.  But `open_stream` on the member (storage.py line 113) sits
outside the try block that guards only the recursive `load` call: a
member whose stream fails to open makes `_load_all` raise, aborting the
batch — here member `good` loads fine, yet the batch over
`[good, bad]` raises the open error of `bad` and returns no fonts at
all. -/
theorem claim_C1_counterexample :
    openFailW "bad" = .error (.otherError "cannot open member") ∧
    loadAnyW ⟨"good"⟩ = .ok [fontPlain] ∧
    load_all openFailW loadAnyW ["good", "bad"] =
      .error (.otherError "cannot open member") :=
  ⟨rfl, rfl, rfl⟩

/-- C1, amended: provided every member's stream opens (`open_stream`,
outside the try block, raises through `_load_all` otherwise), any error
raised by a member's load is caught, logged as `Could not load ...`, and
that member skipped: the bulk call then returns — never raising because
of load-failing members — exactly the fonts of the successfully loaded
members in container enumeration order, alongside one log line per
failed member. -/
theorem claim_C1_bulk_load_isolation
    (openMember : String → Except PyErr StreamV) (opened : String → StreamV)
    (loadMember : StreamV → Except PyErr (List Font)) (members : List String)
    (hopen : ∀ name ∈ members, openMember name = .ok (opened name)) :
    load_all openMember loadMember members =
      .ok ((members.filterMap
              (fun name => (loadMember (opened name)).toOption)).flatten,
           members.filterMap (fun name =>
             match loadMember (opened name) with
             | .ok _ => none
             | .error _ => some ("Could not load `" ++ name ++ "`"))) := by
  have go : ∀ (ms : List String) (packs : List Font) (log : List String),
      (∀ name ∈ ms, openMember name = .ok (opened name)) →
      ms.foldl
        (fun (st : Except PyErr (List Font × List String)) name =>
          match st with
          | .error e => .error e
          | .ok (packs, log) =>
            match openMember name with
            | .error e => .error e
            | .ok stream =>
              match loadMember stream with
              | .error _ =>
                .ok (packs, log ++ ["Could not load `" ++ name ++ "`"])
              | .ok pack => .ok (packs ++ pack, log))
        (.ok (packs, log)) =
      .ok (packs ++ (ms.filterMap
              (fun name => (loadMember (opened name)).toOption)).flatten,
           log ++ ms.filterMap (fun name =>
             match loadMember (opened name) with
             | .ok _ => none
             | .error _ => some ("Could not load `" ++ name ++ "`"))) := by
    intro ms
    induction ms with
    | nil => intro packs log _; simp
    | cons m rest ih =>
      intro packs log hop
      have hm : openMember m = .ok (opened m) := hop m (by simp)
      have hrest : ∀ name ∈ rest, openMember name = .ok (opened name) :=
        fun name hn => hop name (by simp [hn])
      rw [List.foldl_cons]
      cases hl : loadMember (opened m) with
      | error e =>
        simp only [hm, hl]
        rw [ih packs (log ++ ["Could not load `" ++ m ++ "`"]) hrest]
        simp [hl, Except.toOption]
      | ok pack =>
        simp only [hm, hl]
        rw [ih (packs ++ pack) log hrest]
        simp [hl, Except.toOption]
  simpa [load_all] using go members [] [] hopen

/-- C1, witness for the amended theorem: a batch of one parsable and one
corrupt member, both of whose streams open, returns exactly the parsable
member's font and one log line for the corrupt one. -/
theorem claim_C1_bulk_load_isolation_witness :
    load_all openAllW loadW ["font.flf", "bad.flf"] =
      .ok ([fontPlain], ["Could not load `bad.flf`"]) := by
  have h := claim_C1_bulk_load_isolation openAllW (fun name => ⟨name⟩) loadW
    ["font.flf", "bad.flf"] (fun name _ => rfl)
  rw [h]
  rfl

/-- C2, counterexample: the claim says all three provenance properties are
set only where previously unset.  But a font already carrying
`converter = "other-tool"` comes out of a successful single-file load with
its converter replaced by `CONVERTER_NAME`: storage.py line 99 passes
`converter=CONVERTER_NAME` unconditionally, without the keep-if-present
idiom used for the other two properties. -/
theorem claim_C2_counterexample :
    fontTagged.converter = "other-tool" ∧ ¬ fontTagged.converter = "" ∧
    load_from_file (fun s => s) identifyFig lookupNone runTagged ⟨"font.flf"⟩ "" =
      .ok [{ name := "A", converter := CONVERTER_NAME, source_format := "fmt0",
             source_name := "src0" }] ∧
    ¬ CONVERTER_NAME = "other-tool" :=
  ⟨rfl, by decide, rfl, by decide⟩

/-- C2, amended: for every Font of a successful single-file load,
`source_format` and `source_name` are set only where previously unset
(an existing value is kept), while `converter` is always set to the
system identifier, overwriting any existing value. -/
theorem claim_C2_provenance_stamping
    (basename : String → String) (identify : Option StreamV → Option Plugin)
    (lookup : String → Option Plugin) (run : Plugin → Except PyErr (List Font))
    (instream : StreamV) (format : String) (gs : List Font)
    (h : load_from_file basename identify lookup run instream format = .ok gs) :
    ∃ loader fonts, get_for identify lookup (some instream) format = some loader ∧
      run loader = .ok fonts ∧
      gs = fonts.map (stampFont loader.name (basename instream.name)) ∧
      ∀ f : Font,
        (stampFont loader.name (basename instream.name) f).converter = CONVERTER_NAME ∧
        (stampFont loader.name (basename instream.name) f).source_format =
          (if f.source_format = "" then loader.name else f.source_format) ∧
        (stampFont loader.name (basename instream.name) f).source_name =
          (if f.source_name = "" then basename instream.name else f.source_name) := by
  unfold load_from_file at h
  cases hg : get_for identify lookup (some instream) format with
  | none => rw [hg] at h; exact absurd h (by simp)
  | some loader =>
    rw [hg] at h
    dsimp only at h
    cases hr : run loader with
    | error e => rw [hr] at h; exact absurd h (by simp)
    | ok fonts =>
      rw [hr] at h
      dsimp only at h
      by_cases hfs : fonts = []
      · rw [if_pos hfs] at h; exact absurd h (by simp)
      · rw [if_neg hfs] at h
        injection h with h'
        refine ⟨loader, fonts, rfl, hr, h'.symm, ?_⟩
        intro f
        simp [stampFont, Font.set_properties, pyOr]

/-- C2, witness for the amended theorem: a load of one untagged font
through the figlet loader stamping all three properties. -/
theorem claim_C2_provenance_stamping_witness :
    ∃ loader fonts,
      get_for identifyFig lookupNone (some ⟨"font.flf"⟩) "" = some loader ∧
      runPlain loader = .ok fonts ∧
      [{ name := "A", converter := CONVERTER_NAME, source_format := "figlet",
         source_name := "font.flf" : Font }] =
        fonts.map (stampFont loader.name ((fun s => s) (StreamV.name ⟨"font.flf"⟩))) ∧
      ∀ f : Font,
        (stampFont loader.name ((fun s => s) (StreamV.name ⟨"font.flf"⟩)) f).converter =
          CONVERTER_NAME ∧
        (stampFont loader.name ((fun s => s) (StreamV.name ⟨"font.flf"⟩)) f).source_format =
          (if f.source_format = "" then loader.name else f.source_format) ∧
        (stampFont loader.name ((fun s => s) (StreamV.name ⟨"font.flf"⟩)) f).source_name =
          (if f.source_name = ""
           then (fun s => s) (StreamV.name ⟨"font.flf"⟩) else f.source_name) :=
  claim_C2_provenance_stamping (fun s => s) identifyFig lookupNone runPlain
    ⟨"font.flf"⟩ ""
    [{ name := "A", converter := CONVERTER_NAME, source_format := "figlet",
       source_name := "font.flf" }] rfl

/-- C3, counterexample: the claim says a broken pipe while saving one font
halts all further writes of the batch.  But `_save_all` handles
`BrokenPipeError` with `pass` inside the loop (storage.py lines 159-160):
the loop continues, and here the second font `B` is still written to its
own entry after font `A` hit the broken pipe. -/
theorem claim_C3_counterexample :
    saveOneW "A.yaff" fontPlain = .error .brokenPipeError ∧
    save_all unusedNameW saveOneW "" [fontPlain, fontB] = (["B.yaff"], []) :=
  ⟨rfl, rfl⟩

/-- C3, amended: during bulk save, a per-font error is caught and that font
skipped — logged for ordinary errors, silently for a broken pipe — and the
batch continues with the remaining fonts in order; `save_all` is a total
function of the per-font outcomes, so neither condition raises to the top
level, but a broken pipe does not halt the remaining writes. -/
theorem claim_C3_bulk_save_policy
    (unused_name : String → String → String)
    (saveOne : String → Font → Except PyErr Unit)
    (format : String) (fonts : List Font) :
    save_all unused_name saveOne format fonts =
      (fonts.filterMap (fun font =>
          match saveOne (unused_name (replaceChar font.name ' ' '_')
              (pyOr format DEFAULT_FORMAT)) font with
          | .ok _ => some (unused_name (replaceChar font.name ' ' '_')
              (pyOr format DEFAULT_FORMAT))
          | .error _ => none),
       fonts.filterMap (fun font =>
          match saveOne (unused_name (replaceChar font.name ' ' '_')
              (pyOr format DEFAULT_FORMAT)) font with
          | .ok _ => none
          | .error .brokenPipeError => none
          | .error _ => some ("Could not save `" ++
              unused_name (replaceChar font.name ' ' '_')
                (pyOr format DEFAULT_FORMAT) ++ "`"))) := by
  have go : ∀ (fs : List Font) (acc : List String × List String),
      fs.foldl
        (fun st font =>
          let name := replaceChar font.name ' ' '_'
          let fmt := pyOr format DEFAULT_FORMAT
          let filename := unused_name name fmt
          match saveOne filename font with
          | .ok _ => (st.1 ++ [filename], st.2)
          | .error .brokenPipeError => st
          | .error _ => (st.1, st.2 ++ ["Could not save `" ++ filename ++ "`"]))
        acc =
      (acc.1 ++ fs.filterMap (fun font =>
          match saveOne (unused_name (replaceChar font.name ' ' '_')
              (pyOr format DEFAULT_FORMAT)) font with
          | .ok _ => some (unused_name (replaceChar font.name ' ' '_')
              (pyOr format DEFAULT_FORMAT))
          | .error _ => none),
       acc.2 ++ fs.filterMap (fun font =>
          match saveOne (unused_name (replaceChar font.name ' ' '_')
              (pyOr format DEFAULT_FORMAT)) font with
          | .ok _ => none
          | .error .brokenPipeError => none
          | .error _ => some ("Could not save `" ++
              unused_name (replaceChar font.name ' ' '_')
                (pyOr format DEFAULT_FORMAT) ++ "`"))) := by
    intro fs
    induction fs with
    | nil => intro acc; simp
    | cons f rest ih =>
      intro acc
      cases h : saveOne (unused_name (replaceChar f.name ' ' '_')
          (pyOr format DEFAULT_FORMAT)) f with
      | ok u => simp [List.foldl_cons, h, ih]
      | error e => cases e <;> simp [List.foldl_cons, h, ih]
  simpa [save_all] using go fonts ([], [])

/-- C5: in `_load_from_file`, an unresolved plugin and a plugin returning
zero fonts both fail with a `FileFormatError`; consequently every pack
returned by a successful single-file load is non-empty. -/
theorem claim_C5_leaf_load_nonempty
    (basename : String → String) (identify : Option StreamV → Option Plugin)
    (lookup : String → Option Plugin) (run : Plugin → Except PyErr (List Font))
    (instream : StreamV) (format : String) :
    (get_for identify lookup (some instream) format = none →
      load_from_file basename identify lookup run instream format =
        .error (.fileFormatError ("Cannot load from format `" ++ format ++ "`."))) ∧
    (∀ loader, get_for identify lookup (some instream) format = some loader →
      run loader = .ok [] →
      load_from_file basename identify lookup run instream format =
        .error (.fileFormatError "No fonts found in file.")) ∧
    (∀ fonts, load_from_file basename identify lookup run instream format = .ok fonts →
      fonts ≠ []) := by
  refine ⟨?_, ?_, ?_⟩
  · intro h; simp [load_from_file, h]
  · intro loader h hrun; simp [load_from_file, h, hrun]
  · intro fonts h
    unfold load_from_file at h
    cases hg : get_for identify lookup (some instream) format with
    | none => rw [hg] at h; exact absurd h (by simp)
    | some loader =>
      rw [hg] at h
      dsimp only at h
      cases hr : run loader with
      | error e => rw [hr] at h; exact absurd h (by simp)
      | ok fs =>
        rw [hr] at h
        dsimp only at h
        by_cases hfs : fs = []
        · rw [if_pos hfs] at h; exact absurd h (by simp)
        · rw [if_neg hfs] at h
          injection h with h'
          rw [← h']
          simpa using hfs

/-- C5, witness: a load through the figlet loader returning one font
yields a non-empty pack. -/
theorem claim_C5_leaf_load_nonempty_witness :
    [{ name := "A", converter := CONVERTER_NAME, source_format := "figlet",
       source_name := "font.flf" : Font }] ≠ ([] : List Font) :=
  (claim_C5_leaf_load_nonempty (fun s => s) identifyFig lookupNone runPlain
      ⟨"font.flf"⟩ "").2.2
    [{ name := "A", converter := CONVERTER_NAME, source_format := "figlet",
       source_name := "font.flf" }] rfl

/-- C6: plugin resolution order in `get_for`: a non-empty explicit format
name is looked up directly — the result is `lookup format`, independent of
the stream and of `identify`; with no explicit format, `identify` is
consulted and, if it yields a plugin, that plugin is returned; otherwise
the registry falls back to the single default format identifier. -/
theorem claim_C6_resolution_order
    (identify : Option StreamV → Option Plugin) (lookup : String → Option Plugin)
    (file : Option StreamV) :
    (∀ format, format ≠ "" → get_for identify lookup file format = lookup format) ∧
    (∀ c, identify file = some c → get_for identify lookup file "" = some c) ∧
    (identify file = none → get_for identify lookup file "" = lookup DEFAULT_FORMAT) := by
  refine ⟨?_, ?_, ?_⟩
  · intro format hfmt
    simp [get_for, pyOr, hfmt]
  · intro c hc
    simp [get_for, hc]
  · intro hc
    simp [get_for, hc, pyOr]

/-- C6, witness: with an explicit format name the lookup result is used
even though content identification would disagree. -/
theorem claim_C6_resolution_order_witness :
    get_for identifyFig lookupNone (some ⟨"font.txt"⟩) "hex" =
      lookupNone "hex" :=
  (claim_C6_resolution_order identifyFig lookupNone (some ⟨"font.txt"⟩)).1
    "hex" (by decide)

/-- C8: the figlet saver `save_flf` rejects a pack of more than one font
with a `FileFormatError` before anything is written to the output stream,
and for a one-font pack the check does not fire: the run is exactly the
conversion/writing body's run on that font. -/
theorem claim_C8_single_font_saver
    (fonts : List Font) (body : Font → List String × Option PyErr) :
    (1 < fonts.length →
      save_flf fonts body =
        ([], some (.fileFormatError "Can only save one font to .flf file."))) ∧
    (∀ font, fonts = [font] → save_flf fonts body = body font) := by
  constructor
  · intro h
    simp [save_flf, h]
  · intro font hf
    subst hf
    simp [save_flf]

/-- C8, witness: a two-font pack is rejected with nothing written, and a
one-font pack runs the body. -/
theorem claim_C8_single_font_saver_witness :
    (save_flf [fontPlain, fontB] bodyW =
      ([], some (.fileFormatError "Can only save one font to .flf file."))) ∧
    save_flf [fontPlain] bodyW = bodyW fontPlain :=
  ⟨(claim_C8_single_font_saver [fontPlain, fontB] bodyW).1 (by decide),
   (claim_C8_single_font_saver [fontPlain] bodyW).2 fontPlain rfl⟩

/-- Every open call recorded by the resolver's tail obeys the overwrite
policy: container opens of the `where` location pass `true`, stream opens
pass the caller's flag. -/
theorem olTail_trace_events (env : Env) (file : Loc) (mode : String) (whr : Loc)
    (ov : Bool) :
    ∀ ev ∈ (olTail env file mode whr ov).1,
      (∀ tgt m b, ev = OpenEvent.containerOpen .whereContainer tgt m b → b = true) ∧
      (∀ tgt m b, ev = OpenEvent.streamOpen tgt m b → b = ov) := by
  intro ev hev
  unfold olTail at hev
  repeat' split at hev
  all_goals
    simp only [List.mem_cons, List.not_mem_nil, or_false] at hev
  all_goals rcases hev with rfl | rfl | rfl
  all_goals refine ⟨?_, ?_⟩ <;> intro tgt m b heq <;> simp_all

/-- C4: when `where` is empty and `file` is a path that is not a directory,
the resolver first probes `file` itself as a container: on success it
yields `(none, container)`; on a `ContainerFormatError` of the probe it
falls back to the stream-opening step with `where` set to the path's
parent and `file` to its base name — the probe's failure is consumed by
the fallback and the outcome is exactly the continuation's outcome,
whatever the probe's error message was. -/
theorem claim_C4_container_probe_fallback (env : Env) (s mode : String) (ov : Bool)
    (hmode : mode = "r" ∨ mode = "w") (hdir : env.isDir s = false) (hs : s ≠ "") :
    (∀ c, env.openContainer (.path s) mode ov = .ok c →
      open_location env (.path s) mode .emptyLoc ov =
        ([.containerOpen .fileProbe (.path s) mode ov], .ok (none, c))) ∧
    (∀ msg, env.openContainer (.path s) mode ov = .error (.containerFormatError msg) →
      open_location env (.path s) mode .emptyLoc ov =
        (OpenEvent.containerOpen .fileProbe (.path s) mode ov ::
            (olTail env (.path (env.basename s)) mode (.path (env.parent s)) ov).1,
         (olTail env (.path (env.basename s)) mode (.path (env.parent s)) ov).2)) := by
  have hm : ¬ (mode ≠ "r" ∧ mode ≠ "w") := by
    rcases hmode with h | h <;> simp [h]
  constructor <;> intro x hx <;>
    simp [open_location, hm, Loc.truthy, hs, hdir, hx]

/-- C4, witness: in an environment where the probe of `fonts.zip` opens a
container, the resolver yields `(none, container)`. -/
theorem claim_C4_container_probe_fallback_witness :
    open_location envW (.path "fonts.zip") "r" .emptyLoc false =
      ([.containerOpen .fileProbe (.path "fonts.zip") "r" false],
       .ok (none, ⟨"cont"⟩)) :=
  (claim_C4_container_probe_fallback envW "fonts.zip" "r" false (Or.inl rfl) rfl
    (by decide)).1 ⟨"cont"⟩ rfl

/-- C7: overwrite asymmetry: in every resolver run, every container open
of the `where` location passes `overwrite = true` regardless of the
caller's flag, and every stream open of the leaf `file` passes exactly
the caller's flag. -/
theorem claim_C7_overwrite_asymmetry (env : Env) (file0 : Loc) (mode : String)
    (whr0 : Loc) (ov : Bool) :
    ∀ ev ∈ (open_location env file0 mode whr0 ov).1,
      (∀ tgt m b, ev = OpenEvent.containerOpen .whereContainer tgt m b → b = true) ∧
      (∀ tgt m b, ev = OpenEvent.streamOpen tgt m b → b = ov) := by
  intro ev hev
  unfold open_location at hev
  repeat'
    first
    | split at hev
    | dsimp only [Loc.truthy] at hev
  all_goals
    first
    | exact absurd hev (List.not_mem_nil ev)
    | exact olTail_trace_events _ _ _ _ _ ev hev
    | (rcases List.mem_cons.mp hev with rfl | hev'
       · refine ⟨?_, ?_⟩ <;> intro tgt m b heq <;> simp_all
       · first
         | exact absurd hev' (List.not_mem_nil ev)
         | exact olTail_trace_events _ _ _ _ _ ev hev')

/-- C7, witness: a concrete run on an open stream inside an open container
records a stream open, and its flag is the caller's `false`. -/
theorem claim_C7_overwrite_asymmetry_witness :
    OpenEvent.streamOpen (.stream ⟨"s"⟩) "r" false ∈
      (open_location envW (.stream ⟨"s"⟩) "r" (.containerLoc ⟨"c"⟩) false).1 ∧
    false = false :=
  ⟨by decide,
   (claim_C7_overwrite_asymmetry envW (.stream ⟨"s"⟩) "r" (.containerLoc ⟨"c"⟩) false
      (OpenEvent.streamOpen (.stream ⟨"s"⟩) "r" false) (by decide)).2
     (.stream ⟨"s"⟩) "r" false rfl⟩

/-- C9: the resolver of `storage.py` and the resolver that
`formats/_base.py` carries as its own copy are behaviorally equivalent:
on every input they make the same open calls in the same order and
produce the same result or the same error. -/
theorem claim_C9_duplicate_resolvers_equivalent (env : Env) (file0 : Loc)
    (mode : String) (whr0 : Loc) (ov : Bool) :
    open_location_base env file0 mode whr0 ov = open_location env file0 mode whr0 ov :=
  rfl

/-- `sliceStep.go` with a positive countdown first skips that many
elements. -/
theorem sliceStep_go_drop (step : Nat) :
    ∀ (l : List α) (c : Nat), sliceStep.go step l c = sliceStep.go step (l.drop c) 0 := by
  intro l
  induction l with
  | nil => intro c; simp [sliceStep.go]
  | cons a rest ih =>
    intro c
    cases c with
    | zero => simp
    | succ n => simpa [sliceStep.go] using ih n

/-- Dropping past a replicate block drops the remainder from the tail. -/
theorem drop_replicate_append_le (r : α) (rest : List α) :
    ∀ (k n : Nat), k ≤ n →
      (List.replicate k r ++ rest).drop n = rest.drop (n - k) := by
  intro k
  induction k with
  | zero => intro n h; simp
  | succ k ih =>
    intro n h
    cases n with
    | zero => exact absurd h (by omega)
    | succ n =>
      rw [List.replicate_succ, List.cons_append, List.drop_succ_cons,
        ih n (Nat.le_of_succ_le_succ h)]
      congr 1
      omega

/-- Dropping within a replicate block shortens the block. -/
theorem drop_replicate_append_ge (r : α) (rest : List α) :
    ∀ (offs k : Nat), offs ≤ k →
      (List.replicate k r ++ rest).drop offs = List.replicate (k - offs) r ++ rest := by
  intro offs
  induction offs with
  | zero => intro k h; simp
  | succ offs ih =>
    intro k h
    cases k with
    | zero => exact absurd h (by omega)
    | succ k =>
      rw [List.replicate_succ, List.cons_append, List.drop_succ_cons,
        ih k (Nat.le_of_succ_le_succ h)]
      congr 2
      omega

/-- `sliceStep.go` commutes with `map`. -/
theorem sliceStep_go_map (f : α → β) (step : Nat) :
    ∀ (l : List α) (c : Nat),
      sliceStep.go step (l.map f) c = (sliceStep.go step l c).map f := by
  intro l
  induction l with
  | nil => intro c; simp [sliceStep.go]
  | cons a rest ih =>
    intro c
    cases c with
    | zero => simp [sliceStep.go, ih]
    | succ n => simp [sliceStep.go, ih]

/-- The Python slice `l[offs :: step]` commutes with `map`. -/
theorem sliceStep_map (f : α → β) (offs step : Nat) (l : List α) :
    sliceStep offs step (l.map f) = (sliceStep offs step l).map f := by
  unfold sliceStep
  rw [← List.map_drop, sliceStep_go_map]

/-- Key round-trip fact: slicing every `fy`-th element, from any offset
below `fy`, out of a list whose every element was repeated `fy` times
recovers the original list. -/
theorem sliceStep_flatMap_replicate (fy : Nat) (hfy : 1 ≤ fy) :
    ∀ (l : List α) (offs : Nat), offs < fy →
      sliceStep offs fy (l.flatMap (fun r => List.replicate fy r)) = l := by
  intro l
  induction l with
  | nil => intro offs h; simp [sliceStep, sliceStep.go]
  | cons r rest ih =>
    intro offs h
    rw [List.flatMap_cons]
    show sliceStep.go fy
      ((List.replicate fy r ++ rest.flatMap (fun r => List.replicate fy r)).drop offs) 0 = r :: rest
    rw [drop_replicate_append_ge r _ offs fy (Nat.le_of_lt h)]
    rw [show fy - offs = (fy - offs - 1) + 1 by omega, List.replicate_succ, List.cons_append]
    rw [show sliceStep.go fy
        (r :: (List.replicate (fy - offs - 1) r ++
          rest.flatMap (fun r => List.replicate fy r))) 0 =
      r :: sliceStep.go fy
        (List.replicate (fy - offs - 1) r ++
          rest.flatMap (fun r => List.replicate fy r)) (fy - 1) from rfl]
    rw [sliceStep_go_drop]
    rw [drop_replicate_append_le r _ (fy - offs - 1) (fy - 1) (by omega)]
    rw [show fy - 1 - (fy - offs - 1) = offs by omega]
    exact congrArg (r :: ·) (ih offs h)

/-- Any vertical slice of the stretched mapping, from any row offset below
`fy`, equals the horizontally stretched original mapping. -/
theorem stretch_vertical_slice (glyphs : Glyphs) (fx fy : Nat) (hfy : 1 ≤ fy) :
    ∀ offs : Nat, offs < fy →
      (stretch glyphs fx fy).map (fun kc => (kc.1, sliceStep offs fy kc.2)) =
      glyphs.map (fun kc =>
        (kc.1, kc.2.map (fun row => row.flatMap (fun col => List.replicate fx col)))) := by
  intro offs h
  unfold stretch
  rw [List.map_map, List.map_map]
  refine List.map_congr_left (fun kc _ => ?_)
  show (kc.1, sliceStep offs fy
      ((kc.2.flatMap (fun row => List.replicate fy row)).map
        (fun row => row.flatMap (fun col => List.replicate fx col)))) = _
  rw [sliceStep_map, sliceStep_flatMap_replicate fy hfy kc.2 offs h]

/-- C10: stretching a glyph mapping by `factor_x`, `factor_y` and then
shrinking by the same factors without `force` returns the original
mapping and never raises the lossy-shrink error: every shrink offset
slice of the stretched bitmaps agrees, so the loss check passes, and the
kept rows and columns are exactly the originals. -/
theorem claim_C10_stretch_shrink_round_trip (glyphs : Glyphs) (fx fy : Nat)
    (hfx : 1 ≤ fx) (hfy : 1 ≤ fy) (_hrect : rectNonEmpty glyphs = true) :
    shrink (stretch glyphs fx fy) fx fy false = .ok glyphs := by
  have hslice := stretch_vertical_slice glyphs fx fy hfy
  unfold shrink
  have hnone : (if false = true then none
      else (List.range' 1 (fy - 1)).find? (fun offs =>
        decide (¬ (stretch glyphs fx fy).map (fun kc => (kc.1, sliceStep 0 fy kc.2)) =
          (stretch glyphs fx fy).map (fun kc => (kc.1, sliceStep offs fy kc.2))))) =
      none := by
    rw [if_neg (by simp)]
    rw [List.find?_eq_none]
    intro offs hmem
    rcases List.mem_range'_1.mp hmem with ⟨h1, h2⟩
    have hoffs : offs < fy := by omega
    simp only [hslice offs hoffs, hslice 0 (by omega), decide_not, not_not]
    simp
  simp only [hnone]
  rw [hslice 0 (by omega), List.map_map]
  have : ((fun kc : Nat × Bitmap => (kc.1, kc.2.map (fun row => sliceStep 0 fx row))) ∘
      (fun kc : Nat × Bitmap =>
        (kc.1, kc.2.map (fun row => row.flatMap (fun col => List.replicate fx col))))) =
      fun kc => (kc.1, kc.2) := by
    funext kc
    show (kc.1, (kc.2.map (fun row => row.flatMap (fun col => List.replicate fx col))).map
        (fun row => sliceStep 0 fx row)) = _
    rw [List.map_map]
    congr 1
    refine List.map_congr_left (fun row _ => ?_) |>.trans (List.map_id _)
    exact sliceStep_flatMap_replicate fx hfx row 0 (by omega)
  rw [this]
  simp

/-- C10, witness: a concrete two-glyph mapping stretched by factors 2 and
3 and shrunk back is recovered unchanged. -/
theorem claim_C10_stretch_shrink_round_trip_witness :
    (1 ≤ 2 ∧ 1 ≤ 3 ∧ rectNonEmpty gW = true) ∧
    shrink (stretch gW 2 3) 2 3 false = .ok gW :=
  ⟨⟨by decide, by decide, by decide⟩,
   claim_C10_stretch_shrink_round_trip gW 2 3 (by decide) (by decide) (by decide)⟩

end Monobit
